import Mathlib

/-!
Shallow embedding of `src/rqt_virtual_joystick/widgets/controller_buttons_widget.py`.

The file models the interaction state machine of `ControllerButton` and
`ControllerButtonsWidget`: per-button `checked` / `down` / `sticky` flags,
the Qt signal plumbing (`toggled`, `pressed`, `released`, the overridden
`nextCheckState`), and the group-level aggregate `_pressed` set together
with the `button_toggled` / `button_state_changed` emissions.

Qt primitives are modelled by their documented semantics:
* `setChecked(v)` on a checkable button updates `checked` and emits
  `toggled(v)` exactly when the value changes;
* `setDown(v)` updates `down` and emits no signal;
* a mouse press sets `down := true` and emits `pressed`;
* a mouse release over the button clears `down`, runs `nextCheckState`
  (overridden at lines 105-108 to toggle only in sticky mode) and then
  emits `released`.

Signal handlers run synchronously; every `toggled` emission of an owned
button is fed to `ControllerButtonsWidget._on_button_toggled`
(connected at line 282).  Rendering code is out of scope.
-/

/-- GameButton enumeration (lines 19-23): A=0, B=1, X=2, Y=3. -/
inductive GameButton where
  | A
  | B
  | X
  | Y
deriving DecidableEq, Repr, Fintype

/-- Integer value of the IntEnum member. -/
def GameButton.toIndex : GameButton → Nat
  | .A => 0
  | .B => 1
  | .X => 2
  | .Y => 3

/-- Integer-keyed lookup into the closed enumeration, mirroring
`self._buttons.get(btn_id)` where the dict is keyed by the IntEnum. -/
def GameButton.ofNat? (n : Nat) : Option GameButton :=
  if n = 0 then some .A
  else if n = 1 then some .B
  else if n = 2 then some .X
  else if n = 3 then some .Y
  else none

/-- State of one `ControllerButton` (lines 75-93): identity plus the
`checked`, `down` and `_sticky` flags.  Painting state is omitted. -/
structure ControllerButton where
  id : GameButton
  checked : Bool
  down : Bool
  sticky : Bool
deriving DecidableEq, Repr, Fintype

/-- Qt `QAbstractButton.setChecked` on a checkable button: updates
`checked`; the returned list holds the `toggled` emissions (one, with the
new value, exactly when the value changed). -/
def ControllerButton.setChecked (b : ControllerButton) (v : Bool) :
    ControllerButton × List Bool :=
  if b.checked = v then (b, []) else ({ b with checked := v }, [v])

/-- Qt `setDown`: updates `down`, emits nothing. -/
def ControllerButton.setDown (b : ControllerButton) (v : Bool) :
    ControllerButton :=
  { b with down := v }

/-- `ControllerButton.reset` (lines 231-233): `setChecked(False)` then
`setDown(False)`. -/
def ControllerButton.reset (b : ControllerButton) :
    ControllerButton × List Bool :=
  let r := b.setChecked false
  (r.1.setDown false, r.2)

/-- `ControllerButton.set_sticky` (lines 235-238): store the flag, and when
it is now false force `setChecked(False)`. -/
def ControllerButton.set_sticky (b : ControllerButton) (enabled : Bool) :
    ControllerButton × List Bool :=
  let b1 := { b with sticky := enabled }
  if b1.sticky then (b1, []) else b1.setChecked false

/-- A mouse press on the button: Qt sets `down := true` and emits
`pressed`, handled by `_on_pressed` (lines 240-243): in momentary mode an
unchecked button is checked. -/
def ControllerButton.pressEvent (b : ControllerButton) :
    ControllerButton × List Bool :=
  let b1 := b.setDown true
  if b1.sticky then (b1, [])
  else if b1.checked then (b1, [])
  else b1.setChecked true

/-- A mouse release over the button: Qt clears `down`, runs the overridden
`nextCheckState` (lines 105-108: the automatic toggle happens only in
sticky mode), then emits `released`, handled by `_on_released`
(lines 245-248): in momentary mode a checked button is unchecked. -/
def ControllerButton.releaseEvent (b : ControllerButton) :
    ControllerButton × List Bool :=
  let b1 := b.setDown false
  let r1 := if b1.sticky then b1.setChecked (!b1.checked) else (b1, [])
  let r2 :=
    if r1.1.sticky then (r1.1, [])
    else if r1.1.checked then r1.1.setChecked false
    else (r1.1, [])
  (r2.1, r1.2 ++ r2.2)

/-- The primitive operations on a single button. -/
inductive ButtonOp where
  | press
  | release
  | setChecked (v : Bool)
  | setSticky (enabled : Bool)
  | reset
deriving DecidableEq, Repr, Fintype

/-- Run one button-level operation, returning the new state and the list of
`toggled` emissions it produced. -/
def ControllerButton.runOp (b : ControllerButton) :
    ButtonOp → ControllerButton × List Bool
  | .press => b.pressEvent
  | .release => b.releaseEvent
  | .setChecked v => b.setChecked v
  | .setSticky e => b.set_sticky e
  | .reset => b.reset

/-- Raw pointer events for a single button, used to state the momentary
and sticky invariants. -/
inductive RawEvent where
  | press
  | release
deriving DecidableEq, Repr, Fintype

/-- State after one raw pointer event. -/
def ControllerButton.applyEvent (b : ControllerButton) :
    RawEvent → ControllerButton
  | .press => b.pressEvent.1
  | .release => b.releaseEvent.1

/-- State after a sequence of raw pointer events. -/
def ControllerButton.applyEvents :
    ControllerButton → List RawEvent → ControllerButton
  | b, [] => b
  | b, e :: es => applyEvents (b.applyEvent e) es

/-- The two group-level pyqt signals (lines 254-255). -/
inductive GroupEvent where
  | button_toggled (index : Nat) (value : Bool)
  | button_state_changed (index : Nat) (value : Bool)
deriving DecidableEq, Repr

/-- State of `ControllerButtonsWidget`: the fixed dict of four buttons and
the aggregate `_pressed` set (lines 263-264). -/
structure ControllerButtonsWidget where
  buttons : GameButton → ControllerButton
  pressed : Finset GameButton

/-- Point update of the button map at one identity. -/
def updateButton (f : GameButton → ControllerButton) (i : GameButton)
    (b : ControllerButton) : GameButton → ControllerButton :=
  fun j => if j = i then b else f j

/-- `_on_button_toggled` (lines 374-381): maintain `_pressed` and emit
`button_toggled` then `button_state_changed`, both with
`(int(btn_id), checked)`. -/
def ControllerButtonsWidget._on_button_toggled
    (w : ControllerButtonsWidget) (btn_id : GameButton) (checked : Bool) :
    ControllerButtonsWidget × List GroupEvent :=
  let pressed' :=
    if checked then insert btn_id w.pressed else w.pressed.erase btn_id
  ({ w with pressed := pressed' },
   [GroupEvent.button_toggled btn_id.toIndex checked,
    GroupEvent.button_state_changed btn_id.toIndex checked])

/-- Deliver a list of `toggled` emissions of button `btn_id` to the group
handler, in order. -/
def ControllerButtonsWidget.dispatchToggles (btn_id : GameButton) :
    ControllerButtonsWidget → List Bool →
      ControllerButtonsWidget × List GroupEvent
  | w, [] => (w, [])
  | w, t :: ts =>
    let r1 := w._on_button_toggled btn_id t
    let r2 := dispatchToggles btn_id r1.1 ts
    (r2.1, r1.2 ++ r2.2)

/-- Run a button-level operation on the owned button `btn_id`; every
`toggled` emission is handled synchronously by the group. -/
def ControllerButtonsWidget.runButtonOp (w : ControllerButtonsWidget)
    (btn_id : GameButton) (op : ButtonOp) :
    ControllerButtonsWidget × List GroupEvent :=
  let r := (w.buttons btn_id).runOp op
  let w1 : ControllerButtonsWidget :=
    { w with buttons := updateButton w.buttons btn_id r.1 }
  ControllerButtonsWidget.dispatchToggles btn_id w1 r.2

/-- Insertion order of `self._buttons` (BUTTON_LAYOUT, lines 42-47):
Y, X, B, A; `dict.values()` iterates in this order. -/
def buttonOrder : List GameButton := [.Y, .X, .B, .A]

/-- Sequential loop over a list of button identities, accumulating the
emitted group events. -/
def ControllerButtonsWidget.foldOps :
    ControllerButtonsWidget → List GameButton →
      (ControllerButtonsWidget → GameButton →
        ControllerButtonsWidget × List GroupEvent) →
      ControllerButtonsWidget × List GroupEvent
  | w, [], _ => (w, [])
  | w, i :: ids, f =>
    let r := f w i
    let rest := foldOps r.1 ids f
    (rest.1, r.2 ++ rest.2)

/-- `reset_all` (lines 363-372): when `_pressed` is empty, call
`button.reset()` on every owned button; otherwise iterate over a snapshot
of `_pressed`, call `set_button_checked(btn_id, False)` for each, then
clear `_pressed`.  The snapshot is modelled in `buttonOrder` order (Python
set iteration order is unspecified). -/
def ControllerButtonsWidget.reset_all (w : ControllerButtonsWidget) :
    ControllerButtonsWidget × List GroupEvent :=
  if w.pressed = ∅ then
    w.foldOps buttonOrder (fun w' i => w'.runButtonOp i ButtonOp.reset)
  else
    let snapshot := buttonOrder.filter (fun i => i ∈ w.pressed)
    let r := w.foldOps snapshot
      (fun w' i => w'.runButtonOp i (ButtonOp.setChecked false))
    ({ r.1 with pressed := ∅ }, r.2)

/-- `set_sticky_mode` (lines 343-349): propagate `set_sticky(enabled)` to
every owned button, then, when `enabled` is false, perform `reset_buttons`
(an alias of `reset_all`, lines 360-361). -/
def ControllerButtonsWidget.set_sticky_mode (w : ControllerButtonsWidget)
    (enabled : Bool) : ControllerButtonsWidget × List GroupEvent :=
  let r := w.foldOps buttonOrder
    (fun w' i => w'.runButtonOp i (ButtonOp.setSticky enabled))
  if enabled then r
  else
    let r2 := r.1.reset_all
    (r2.1, r.2 ++ r2.2)

/-- `set_button_checked` (lines 351-355): integer-keyed lookup; unknown
identities raise `KeyError` (no state change), known ones get
`setChecked(checked)`. -/
def ControllerButtonsWidget.set_button_checked
    (w : ControllerButtonsWidget) (btn_id : Nat) (checked : Bool) :
    Except String (ControllerButtonsWidget × List GroupEvent) :=
  match GameButton.ofNat? btn_id with
  | none => Except.error ("Unknown button id: " ++ toString btn_id)
  | some i => Except.ok (w.runButtonOp i (ButtonOp.setChecked checked))

/-- `get_pressed_buttons` (lines 357-358): the `_pressed` set as integers. -/
def ControllerButtonsWidget.get_pressed_buttons
    (w : ControllerButtonsWidget) : Finset Nat :=
  w.pressed.image GameButton.toIndex

/-- Widget state right after `_init_ui`: four fresh buttons
(`checked=false, down=false, sticky=false`) and an empty `_pressed` set. -/
def initWidget : ControllerButtonsWidget :=
  { buttons := fun i => { id := i, checked := false, down := false, sticky := false },
    pressed := ∅ }

/-- `__init__` (lines 257-267): build the buttons, then apply
`set_sticky_buttons(sticky_buttons)`, an alias of `set_sticky_mode`. -/
def mkWidget (sticky_buttons : Bool) : ControllerButtonsWidget :=
  (initWidget.set_sticky_mode sticky_buttons).1

/-- The group-level operations a host can perform. -/
inductive GroupOp where
  | press (i : GameButton)
  | release (i : GameButton)
  | setButtonChecked (n : Nat) (v : Bool)
  | setStickyMode (enabled : Bool)
  | resetAll
deriving Repr

/-- Apply one group-level operation.  A `KeyError` from
`set_button_checked` leaves the state unchanged. -/
def ControllerButtonsWidget.applyOp (w : ControllerButtonsWidget) :
    GroupOp → ControllerButtonsWidget × List GroupEvent
  | .press i => w.runButtonOp i ButtonOp.press
  | .release i => w.runButtonOp i ButtonOp.release
  | .setButtonChecked n v =>
    match w.set_button_checked n v with
    | Except.ok r => r
    | Except.error _ => (w, [])
  | .setStickyMode e => w.set_sticky_mode e
  | .resetAll => w.reset_all

/-- Apply a sequence of group-level operations. -/
def ControllerButtonsWidget.applyOps :
    ControllerButtonsWidget → List GroupOp → ControllerButtonsWidget
  | w, [] => w
  | w, op :: ops => applyOps (w.applyOp op).1 ops

/-- The aggregate-consistency invariant: `_pressed` holds exactly the
identities of the checked buttons. -/
def PressedInv (w : ControllerButtonsWidget) : Prop :=
  ∀ i : GameButton, i ∈ w.pressed ↔ (w.buttons i).checked = true

instance (w : ControllerButtonsWidget) : Decidable (PressedInv w) :=
  inferInstanceAs (Decidable (∀ i : GameButton,
    i ∈ w.pressed ↔ (w.buttons i).checked = true))

/-- Projection of an event list to the `button_toggled` channel. -/
def toggledChannel : List GroupEvent → List (Nat × Bool)
  | [] => []
  | GroupEvent.button_toggled i v :: es => (i, v) :: toggledChannel es
  | GroupEvent.button_state_changed _ _ :: es => toggledChannel es

/-- Projection of an event list to the `button_state_changed` channel. -/
def stateChangedChannel : List GroupEvent → List (Nat × Bool)
  | [] => []
  | GroupEvent.button_toggled _ _ :: es => stateChangedChannel es
  | GroupEvent.button_state_changed i v :: es =>
    (i, v) :: stateChangedChannel es

/-- Expand a list of transitions into the paired two-channel emissions. -/
def pairEvents : List (Nat × Bool) → List GroupEvent
  | [] => []
  | (i, v) :: ps =>
    GroupEvent.button_toggled i v ::
      GroupEvent.button_state_changed i v :: pairEvents ps

/-! ### Button-level facts -/

lemma runOp_toggles_spec : ∀ (b : ControllerButton) (op : ButtonOp),
    (b.runOp op).2 =
      if (b.runOp op).1.checked = b.checked then []
      else [(b.runOp op).1.checked] := by
  decide

lemma runOp_reset_fst : ∀ b : ControllerButton,
    (b.runOp ButtonOp.reset).1 = { b with checked := false, down := false } := by
  decide

lemma runOp_setChecked_fst : ∀ (b : ControllerButton) (v : Bool),
    (b.runOp (ButtonOp.setChecked v)).1 = { b with checked := v } := by
  decide

lemma runOp_setSticky_true_fst : ∀ b : ControllerButton,
    (b.runOp (ButtonOp.setSticky true)).1 = { b with sticky := true } := by
  decide

lemma runOp_setSticky_false_fst : ∀ b : ControllerButton,
    (b.runOp (ButtonOp.setSticky false)).1
      = { b with sticky := false, checked := false } := by
  decide

lemma runOp_setSticky_true_checked : ∀ b : ControllerButton,
    (b.runOp (ButtonOp.setSticky true)).1.checked = b.checked := by
  decide

/-! ### Event plumbing -/

lemma pairEvents_append : ∀ a b : List (Nat × Bool),
    pairEvents (a ++ b) = pairEvents a ++ pairEvents b := by
  intro a b
  induction a with
  | nil => rfl
  | cons p ps ih => cases p; simp [pairEvents, ih]

lemma dispatchToggles_buttons (i : GameButton) :
    ∀ (ts : List Bool) (w : ControllerButtonsWidget),
      (ControllerButtonsWidget.dispatchToggles i w ts).1.buttons = w.buttons := by
  intro ts
  induction ts with
  | nil => intro w; rfl
  | cons t ts ih =>
    intro w
    simpa [ControllerButtonsWidget.dispatchToggles,
      ControllerButtonsWidget._on_button_toggled] using
      ih (w._on_button_toggled i t).1

lemma dispatchToggles_events (i : GameButton) :
    ∀ (ts : List Bool) (w : ControllerButtonsWidget),
      (ControllerButtonsWidget.dispatchToggles i w ts).2
        = pairEvents (ts.map fun t => (i.toIndex, t)) := by
  intro ts
  induction ts with
  | nil => intro w; rfl
  | cons t ts ih =>
    intro w
    simp [ControllerButtonsWidget.dispatchToggles,
      ControllerButtonsWidget._on_button_toggled, pairEvents, ih]

lemma dispatchToggles_pressed_single (i : GameButton)
    (w : ControllerButtonsWidget) (v : Bool) :
    (ControllerButtonsWidget.dispatchToggles i w [v]).1.pressed
      = if v then insert i w.pressed else w.pressed.erase i := by
  rfl

/-! ### runButtonOp -/

lemma runButtonOp_buttons (w : ControllerButtonsWidget) (i : GameButton)
    (op : ButtonOp) (j : GameButton) :
    (w.runButtonOp i op).1.buttons j
      = if j = i then ((w.buttons i).runOp op).1 else w.buttons j := by
  unfold ControllerButtonsWidget.runButtonOp
  rw [dispatchToggles_buttons]
  rfl

lemma runButtonOp_pressed (w : ControllerButtonsWidget) (i : GameButton)
    (op : ButtonOp) :
    (w.runButtonOp i op).1.pressed =
      if ((w.buttons i).runOp op).1.checked = (w.buttons i).checked then
        w.pressed
      else if ((w.buttons i).runOp op).1.checked = true then
        insert i w.pressed
      else w.pressed.erase i := by
  show (ControllerButtonsWidget.dispatchToggles i
      { w with buttons := updateButton w.buttons i ((w.buttons i).runOp op).1 }
      ((w.buttons i).runOp op).2).1.pressed = _
  rw [runOp_toggles_spec]
  by_cases hc : ((w.buttons i).runOp op).1.checked = (w.buttons i).checked
  · rw [if_pos hc, if_pos hc]
    rfl
  · rw [if_neg hc, if_neg hc, dispatchToggles_pressed_single]

lemma runButtonOp_events (w : ControllerButtonsWidget) (i : GameButton)
    (op : ButtonOp) :
    (w.runButtonOp i op).2
      = pairEvents ((((w.buttons i).runOp op).2).map fun t => (i.toIndex, t)) := by
  unfold ControllerButtonsWidget.runButtonOp
  rw [dispatchToggles_events]

lemma runButtonOp_inv (w : ControllerButtonsWidget) (i : GameButton)
    (op : ButtonOp) (h : PressedInv w) : PressedInv (w.runButtonOp i op).1 := by
  intro j
  rw [runButtonOp_buttons, runButtonOp_pressed]
  by_cases hc : ((w.buttons i).runOp op).1.checked = (w.buttons i).checked
  · rw [if_pos hc]
    by_cases hj : j = i
    · subst hj
      rw [if_pos rfl, hc]
      exact h j
    · rw [if_neg hj]
      exact h j
  · rw [if_neg hc]
    by_cases hj : j = i
    · subst hj
      rw [if_pos rfl]
      by_cases hv : ((w.buttons j).runOp op).1.checked = true
      · rw [if_pos hv]
        simp [hv]
      · rw [if_neg hv]
        simp [Bool.not_eq_true] at hv
        simp [hv]
    · rw [if_neg hj]
      by_cases hv : ((w.buttons i).runOp op).1.checked = true
      · rw [if_pos hv]
        simp [Finset.mem_insert, hj, h j]
      · rw [if_neg hv]
        simp [Finset.mem_erase, hj, h j]

/-! ### Folds over the owned buttons -/

lemma foldOps_inv
    (f : ControllerButtonsWidget → GameButton →
      ControllerButtonsWidget × List GroupEvent)
    (hf : ∀ w i, PressedInv w → PressedInv (f w i).1) :
    ∀ (ids : List GameButton) (w : ControllerButtonsWidget),
      PressedInv w → PressedInv (w.foldOps ids f).1 := by
  intro ids
  induction ids with
  | nil => intro w h; exact h
  | cons i rest ih =>
    intro w h
    exact ih (f w i).1 (hf w i h)

lemma foldOps_events_paired
    (f : ControllerButtonsWidget → GameButton →
      ControllerButtonsWidget × List GroupEvent)
    (hf : ∀ w i, ∃ l, (f w i).2 = pairEvents l) :
    ∀ (ids : List GameButton) (w : ControllerButtonsWidget),
      ∃ l, (w.foldOps ids f).2 = pairEvents l := by
  intro ids
  induction ids with
  | nil => intro w; exact ⟨[], rfl⟩
  | cons i rest ih =>
    intro w
    obtain ⟨l1, h1⟩ := hf w i
    obtain ⟨l2, h2⟩ := ih (f w i).1
    refine ⟨l1 ++ l2, ?_⟩
    show (f w i).2 ++ ((f w i).1.foldOps rest f).2 = _
    rw [h1, h2, pairEvents_append]

lemma foldOps_run_buttons (op : ButtonOp) :
    ∀ (ids : List GameButton), ids.Nodup →
      ∀ (w : ControllerButtonsWidget) (j : GameButton),
        ((w.foldOps ids (fun w' i => w'.runButtonOp i op)).1.buttons j)
          = if j ∈ ids then ((w.buttons j).runOp op).1 else w.buttons j := by
  intro ids
  induction ids with
  | nil => intro _ w j; simp [ControllerButtonsWidget.foldOps]
  | cons i rest ih =>
    intro hnd w j
    obtain ⟨hni, hnd'⟩ := List.nodup_cons.mp hnd
    show ((w.runButtonOp i op).1.foldOps rest
        (fun w' i => w'.runButtonOp i op)).1.buttons j = _
    rw [ih hnd', runButtonOp_buttons]
    by_cases hj : j = i
    · subst hj
      have hr : j ∉ rest := hni
      simp [hr]
    · by_cases hrest : j ∈ rest <;> simp [hj, hrest]

lemma foldOps_run_pressed_of_checked_eq (op : ButtonOp)
    (hop : ∀ b : ControllerButton, (b.runOp op).1.checked = b.checked) :
    ∀ (ids : List GameButton) (w : ControllerButtonsWidget),
      ((w.foldOps ids (fun w' i => w'.runButtonOp i op)).1.pressed)
        = w.pressed := by
  intro ids
  induction ids with
  | nil => intro w; rfl
  | cons i rest ih =>
    intro w
    show ((w.runButtonOp i op).1.foldOps rest
        (fun w' i => w'.runButtonOp i op)).1.pressed = _
    rw [ih, runButtonOp_pressed, if_pos (hop (w.buttons i))]

lemma pressedInv_empty (w : ControllerButtonsWidget) (h : PressedInv w)
    (hc : ∀ j, (w.buttons j).checked = false) : w.pressed = ∅ := by
  apply Finset.eq_empty_iff_forall_not_mem.mpr
  intro j hj
  have hm := (h j).mp hj
  rw [hc j] at hm
  exact Bool.false_ne_true hm

lemma buttonOrder_complete : ∀ j : GameButton, j ∈ buttonOrder := by decide

lemma buttonOrder_nodup : buttonOrder.Nodup := by decide

/-! ### reset_all -/

lemma reset_all_fst_empty (w : ControllerButtonsWidget) (hp : w.pressed = ∅) :
    (w.reset_all).1 = (w.foldOps buttonOrder
      (fun w' i => w'.runButtonOp i ButtonOp.reset)).1 := by
  unfold ControllerButtonsWidget.reset_all
  rw [if_pos hp]

lemma reset_all_snd_empty (w : ControllerButtonsWidget) (hp : w.pressed = ∅) :
    (w.reset_all).2 = (w.foldOps buttonOrder
      (fun w' i => w'.runButtonOp i ButtonOp.reset)).2 := by
  unfold ControllerButtonsWidget.reset_all
  rw [if_pos hp]

lemma reset_all_fst_nonempty (w : ControllerButtonsWidget)
    (hp : ¬ w.pressed = ∅) :
    (w.reset_all).1 = { (w.foldOps (buttonOrder.filter (fun i => i ∈ w.pressed))
        (fun w' i => w'.runButtonOp i (ButtonOp.setChecked false))).1
      with pressed := (∅ : Finset GameButton) } := by
  unfold ControllerButtonsWidget.reset_all
  rw [if_neg hp]

lemma reset_all_snd_nonempty (w : ControllerButtonsWidget)
    (hp : ¬ w.pressed = ∅) :
    (w.reset_all).2 = (w.foldOps (buttonOrder.filter (fun i => i ∈ w.pressed))
        (fun w' i => w'.runButtonOp i (ButtonOp.setChecked false))).2 := by
  unfold ControllerButtonsWidget.reset_all
  rw [if_neg hp]

lemma reset_all_spec (w : ControllerButtonsWidget) (h : PressedInv w) :
    (∀ j, ((w.reset_all).1.buttons j).checked = false)
    ∧ (w.reset_all).1.pressed = ∅
    ∧ (∀ j, ((w.reset_all).1.buttons j).sticky = (w.buttons j).sticky)
    ∧ (w.pressed = ∅ → ∀ j, ((w.reset_all).1.buttons j).down = false)
    ∧ (w.pressed ≠ ∅ → ∀ j, ((w.reset_all).1.buttons j).down = (w.buttons j).down) := by
  by_cases hp : w.pressed = ∅
  · have hb : ∀ j, ((w.reset_all).1.buttons j)
        = { w.buttons j with checked := false, down := false } := by
      intro j
      rw [reset_all_fst_empty w hp,
        foldOps_run_buttons ButtonOp.reset buttonOrder buttonOrder_nodup w j,
        if_pos (buttonOrder_complete j), runOp_reset_fst]
    have hinv : PressedInv (w.reset_all).1 := by
      rw [reset_all_fst_empty w hp]
      exact foldOps_inv _ (fun w' i h' => runButtonOp_inv w' i ButtonOp.reset h')
        buttonOrder w h
    refine ⟨fun j => by rw [hb j], ?_, fun j => by rw [hb j],
      fun _ j => by rw [hb j], fun hne => absurd hp hne⟩
    exact pressedInv_empty _ hinv (fun j => by rw [hb j])
  · have hb : ∀ j, ((w.reset_all).1.buttons j)
        = if j ∈ buttonOrder.filter (fun i => i ∈ w.pressed)
          then { w.buttons j with checked := false } else w.buttons j := by
      intro j
      rw [reset_all_fst_nonempty w hp]
      show ((w.foldOps (buttonOrder.filter (fun i => i ∈ w.pressed))
          (fun w' i => w'.runButtonOp i (ButtonOp.setChecked false))).1.buttons j) = _
      rw [foldOps_run_buttons (ButtonOp.setChecked false) _
        (buttonOrder_nodup.filter _) w j, runOp_setChecked_fst]
    have hchecked : ∀ j, ((w.reset_all).1.buttons j).checked = false := by
      intro j
      rw [hb j]
      by_cases hmem : j ∈ buttonOrder.filter (fun i => i ∈ w.pressed)
      · simp [hmem]
      · rw [if_neg hmem]
        have hjp : j ∉ w.pressed := by
          intro hjp
          exact hmem (List.mem_filter.mpr ⟨buttonOrder_complete j, by simpa using hjp⟩)
        by_cases hcv : (w.buttons j).checked = true
        · exact absurd ((h j).mpr hcv) hjp
        · simpa using hcv
    have hpr : (w.reset_all).1.pressed = ∅ := by
      rw [reset_all_fst_nonempty w hp]
    refine ⟨hchecked, hpr, ?_, fun he => absurd he hp, fun _ j => ?_⟩
    · intro j
      rw [hb j]
      by_cases hmem : j ∈ buttonOrder.filter (fun i => i ∈ w.pressed) <;>
        simp [hmem]
    · rw [hb j]
      by_cases hmem : j ∈ buttonOrder.filter (fun i => i ∈ w.pressed) <;>
        simp [hmem]

lemma reset_all_inv (w : ControllerButtonsWidget) (h : PressedInv w) :
    PressedInv (w.reset_all).1 := by
  have hs := reset_all_spec w h
  intro j
  rw [hs.2.1, hs.1 j]
  simp

/-! ### set_sticky_mode -/

lemma set_sticky_mode_eq_true (w : ControllerButtonsWidget) :
    w.set_sticky_mode true = w.foldOps buttonOrder
      (fun w' i => w'.runButtonOp i (ButtonOp.setSticky true)) := by
  rfl

lemma set_sticky_mode_fst_false (w : ControllerButtonsWidget) :
    (w.set_sticky_mode false).1
      = ((w.foldOps buttonOrder
          (fun w' i => w'.runButtonOp i (ButtonOp.setSticky false))).1.reset_all).1 := by
  rfl

lemma set_sticky_mode_snd_false (w : ControllerButtonsWidget) :
    (w.set_sticky_mode false).2
      = (w.foldOps buttonOrder
          (fun w' i => w'.runButtonOp i (ButtonOp.setSticky false))).2
        ++ ((w.foldOps buttonOrder
          (fun w' i => w'.runButtonOp i (ButtonOp.setSticky false))).1.reset_all).2 := by
  rfl

lemma set_sticky_mode_true_spec (w : ControllerButtonsWidget) :
    (∀ j, ((w.set_sticky_mode true).1.buttons j)
        = { w.buttons j with sticky := true })
    ∧ (w.set_sticky_mode true).1.pressed = w.pressed := by
  rw [set_sticky_mode_eq_true]
  constructor
  · intro j
    rw [foldOps_run_buttons (ButtonOp.setSticky true) buttonOrder
      buttonOrder_nodup w j, if_pos (buttonOrder_complete j),
      runOp_setSticky_true_fst]
  · exact foldOps_run_pressed_of_checked_eq (ButtonOp.setSticky true)
      runOp_setSticky_true_checked buttonOrder w

lemma set_sticky_mode_false_spec (w : ControllerButtonsWidget)
    (h : PressedInv w) :
    (∀ j, ((w.set_sticky_mode false).1.buttons j).checked = false
      ∧ ((w.set_sticky_mode false).1.buttons j).down = false
      ∧ ((w.set_sticky_mode false).1.buttons j).sticky = false)
    ∧ (w.set_sticky_mode false).1.pressed = ∅ := by
  have hw1b : ∀ j, ((w.foldOps buttonOrder
      (fun w' i => w'.runButtonOp i (ButtonOp.setSticky false))).1.buttons j)
        = { w.buttons j with sticky := false, checked := false } := by
    intro j
    rw [foldOps_run_buttons (ButtonOp.setSticky false) buttonOrder
      buttonOrder_nodup w j, if_pos (buttonOrder_complete j),
      runOp_setSticky_false_fst]
  have hw1inv : PressedInv (w.foldOps buttonOrder
      (fun w' i => w'.runButtonOp i (ButtonOp.setSticky false))).1 :=
    foldOps_inv _ (fun w' i h' => runButtonOp_inv w' i (ButtonOp.setSticky false) h')
      buttonOrder w h
  have hw1p : (w.foldOps buttonOrder
      (fun w' i => w'.runButtonOp i (ButtonOp.setSticky false))).1.pressed = ∅ :=
    pressedInv_empty _ hw1inv (fun j => by rw [hw1b j])
  have hr := reset_all_spec _ hw1inv
  constructor
  · intro j
    refine ⟨?_, ?_, ?_⟩
    · rw [set_sticky_mode_fst_false]
      exact hr.1 j
    · rw [set_sticky_mode_fst_false]
      exact hr.2.2.2.1 hw1p j
    · rw [set_sticky_mode_fst_false, hr.2.2.1 j, hw1b j]
  · rw [set_sticky_mode_fst_false]
    exact hr.2.1

lemma set_sticky_mode_inv (w : ControllerButtonsWidget) (e : Bool)
    (h : PressedInv w) : PressedInv (w.set_sticky_mode e).1 := by
  cases e
  · intro j
    rw [(set_sticky_mode_false_spec w h).2, (set_sticky_mode_false_spec w h).1 j |>.1]
    simp
  · intro j
    rw [(set_sticky_mode_true_spec w).2, (set_sticky_mode_true_spec w).1 j]
    exact h j

/-! ### Invariant preservation through the public API -/

lemma set_button_checked_ok (w : ControllerButtonsWidget) (n : Nat)
    (v : Bool) (i : GameButton) (hi : GameButton.ofNat? n = some i) :
    w.set_button_checked n v
      = Except.ok (w.runButtonOp i (ButtonOp.setChecked v)) := by
  unfold ControllerButtonsWidget.set_button_checked
  rw [hi]

lemma set_button_checked_err (w : ControllerButtonsWidget) (n : Nat)
    (v : Bool) (hn : GameButton.ofNat? n = none) :
    w.set_button_checked n v
      = Except.error ("Unknown button id: " ++ toString n) := by
  unfold ControllerButtonsWidget.set_button_checked
  rw [hn]

lemma applyOp_inv (w : ControllerButtonsWidget) (op : GroupOp)
    (h : PressedInv w) : PressedInv (w.applyOp op).1 := by
  cases op with
  | press i => exact runButtonOp_inv w i ButtonOp.press h
  | release i => exact runButtonOp_inv w i ButtonOp.release h
  | setButtonChecked n v =>
    show PressedInv (match w.set_button_checked n v with
      | Except.ok r => r
      | Except.error _ => (w, [])).1
    cases hn : GameButton.ofNat? n with
    | none => rw [set_button_checked_err w n v hn]; exact h
    | some i =>
      rw [set_button_checked_ok w n v i hn]
      exact runButtonOp_inv w i (ButtonOp.setChecked v) h
  | setStickyMode e => exact set_sticky_mode_inv w e h
  | resetAll => exact reset_all_inv w h

lemma applyOps_inv : ∀ (ops : List GroupOp) (w : ControllerButtonsWidget),
    PressedInv w → PressedInv (w.applyOps ops) := by
  intro ops
  induction ops with
  | nil => intro w h; exact h
  | cons op ops ih =>
    intro w h
    exact ih (w.applyOp op).1 (applyOp_inv w op h)

lemma initWidget_inv : PressedInv initWidget := by decide

lemma mkWidget_inv (s : Bool) : PressedInv (mkWidget s) :=
  set_sticky_mode_inv initWidget s initWidget_inv

/-! ### Momentary-mode facts and channel lemmas -/

lemma pressEvent_momentary : ∀ b : ControllerButton, b.sticky = false →
    b.pressEvent.1.checked = true ∧ b.pressEvent.1.down = true := by
  decide

lemma releaseEvent_momentary : ∀ b : ControllerButton, b.sticky = false →
    b.releaseEvent.1.checked = false ∧ b.releaseEvent.1.down = false := by
  decide

lemma applyEvent_sticky : ∀ (b : ControllerButton) (e : RawEvent),
    (b.applyEvent e).sticky = b.sticky := by
  decide

lemma applyEvents_momentary : ∀ (es : List RawEvent), es ≠ [] →
    ∀ b : ControllerButton, b.sticky = false →
    (b.applyEvents es).checked = (b.applyEvents es).down := by
  intro es
  induction es with
  | nil => intro hne; exact absurd rfl hne
  | cons e rest ih =>
    intro _ b hb
    show ((b.applyEvent e).applyEvents rest).checked
      = ((b.applyEvent e).applyEvents rest).down
    by_cases hrest : rest = []
    · subst hrest
      show (b.applyEvent e).checked = (b.applyEvent e).down
      cases e with
      | press =>
        have h1 := pressEvent_momentary b hb
        show b.pressEvent.1.checked = b.pressEvent.1.down
        rw [h1.1, h1.2]
      | release =>
        have h1 := releaseEvent_momentary b hb
        show b.releaseEvent.1.checked = b.releaseEvent.1.down
        rw [h1.1, h1.2]
    · exact ih hrest (b.applyEvent e) (by rw [applyEvent_sticky]; exact hb)

lemma toggledChannel_pairEvents : ∀ l : List (Nat × Bool),
    toggledChannel (pairEvents l) = l := by
  intro l
  induction l with
  | nil => rfl
  | cons p ps ih => cases p; simp [pairEvents, toggledChannel, ih]

lemma stateChangedChannel_pairEvents : ∀ l : List (Nat × Bool),
    stateChangedChannel (pairEvents l) = l := by
  intro l
  induction l with
  | nil => rfl
  | cons p ps ih => cases p; simp [pairEvents, stateChangedChannel, ih]

lemma runButtonOp_setChecked_self (w : ControllerButtonsWidget)
    (i : GameButton) (v : Bool) :
    ((w.runButtonOp i (ButtonOp.setChecked v)).1.buttons i).checked = v := by
  rw [runButtonOp_buttons, if_pos rfl, runOp_setChecked_fst]

lemma runButtonOp_other (w : ControllerButtonsWidget) (i : GameButton)
    (op : ButtonOp) (j : GameButton) (hj : j ≠ i) :
    (w.runButtonOp i op).1.buttons j = w.buttons j := by
  rw [runButtonOp_buttons, if_neg hj]

lemma reset_all_events_paired (w : ControllerButtonsWidget) :
    ∃ l, (w.reset_all).2 = pairEvents l := by
  by_cases hp : w.pressed = ∅
  · rw [reset_all_snd_empty w hp]
    exact foldOps_events_paired _
      (fun w' i => ⟨_, runButtonOp_events w' i ButtonOp.reset⟩) buttonOrder w
  · rw [reset_all_snd_nonempty w hp]
    exact foldOps_events_paired _
      (fun w' i => ⟨_, runButtonOp_events w' i (ButtonOp.setChecked false)⟩) _ w

lemma set_sticky_mode_events_paired (w : ControllerButtonsWidget) (e : Bool) :
    ∃ l, (w.set_sticky_mode e).2 = pairEvents l := by
  cases e
  · rw [set_sticky_mode_snd_false]
    obtain ⟨l1, h1⟩ := foldOps_events_paired _
      (fun w' i => ⟨_, runButtonOp_events w' i (ButtonOp.setSticky false)⟩)
      buttonOrder w
    obtain ⟨l2, h2⟩ := reset_all_events_paired
      (w.foldOps buttonOrder
        (fun w' i => w'.runButtonOp i (ButtonOp.setSticky false))).1
    exact ⟨l1 ++ l2, by rw [h1, h2, pairEvents_append]⟩
  · rw [set_sticky_mode_eq_true]
    exact foldOps_events_paired _
      (fun w' i => ⟨_, runButtonOp_events w' i (ButtonOp.setSticky true)⟩)
      buttonOrder w

/-! ### Claim theorems -/

/-- C1: after any sequence of operations (press, release, setButtonChecked,
setStickyMode, resetAll) on a group constructed with the fixed 4 identities,
`get_pressed_buttons` returns exactly the set of integer-encoded identities
whose button has `checked = true`; the cached pressed set is never stale. -/
theorem c1_aggregate_consistency (s : Bool) (ops : List GroupOp) :
    ((mkWidget s).applyOps ops).get_pressed_buttons
      = (Finset.univ.filter
          (fun i : GameButton =>
            (((mkWidget s).applyOps ops).buttons i).checked = true)).image
          GameButton.toIndex := by
  have h := applyOps_inv ops (mkWidget s) (mkWidget_inv s)
  unfold ControllerButtonsWidget.get_pressed_buttons
  congr 1
  apply Finset.ext
  intro j
  rw [Finset.mem_filter]
  constructor
  · intro hj
    exact ⟨Finset.mem_univ j, (h j).mp hj⟩
  · intro hj
    exact (h j).mpr hj.2

/-- C2 counterexample: the claim "after resetAll every owned button has
checked = false and down = false" fails on the code.  From a freshly built
momentary group, pressing A (checked = down = true, pressed = {A}) and then
calling `reset_all` takes the non-empty branch, which only unchecks the
pressed buttons and never touches any `down` flag: button A keeps
`down = true`. -/
theorem c2_counterexample :
    ¬ ((((mkWidget false).applyOp (GroupOp.press GameButton.A)).1.reset_all).1.buttons
        GameButton.A).down = false := by
  decide

/-- C2 (amended): after `reset_all` every owned button has `checked = false`
and the aggregate pressed set is empty; the transient `down` flags are
cleared only when the pressed set was empty at the time of the call, and are
left unchanged when it was non-empty. -/
theorem c2_reset_all (w : ControllerButtonsWidget) (h : PressedInv w) :
    (∀ j, ((w.reset_all).1.buttons j).checked = false)
    ∧ (w.reset_all).1.get_pressed_buttons = ∅
    ∧ (w.pressed = ∅ → ∀ j, ((w.reset_all).1.buttons j).down = false)
    ∧ (w.pressed ≠ ∅ → ∀ j, ((w.reset_all).1.buttons j).down = (w.buttons j).down) := by
  have hs := reset_all_spec w h
  refine ⟨hs.1, ?_, hs.2.2.2.1, hs.2.2.2.2⟩
  unfold ControllerButtonsWidget.get_pressed_buttons
  rw [hs.2.1]
  rfl

/-- C2 witness: evaluating the amended claim on the pressed-A state. -/
theorem c2_reset_all_witness :
    ((((mkWidget false).applyOp (GroupOp.press GameButton.A)).1.reset_all).1.buttons
        GameButton.A).checked = false
    ∧ ((((mkWidget false).applyOp (GroupOp.press GameButton.A)).1.reset_all).1.buttons
        GameButton.A).down
      = ((((mkWidget false).applyOp (GroupOp.press GameButton.A)).1.buttons
          GameButton.A)).down := by
  have h := c2_reset_all ((mkWidget false).applyOp (GroupOp.press GameButton.A)).1
    (by decide)
  exact ⟨h.1 GameButton.A, h.2.2.2 (by decide) GameButton.A⟩

/-- C3: in momentary mode, `checked` equals `down` immediately after every
press/release event: a press sets both to true, a release sets both to
false, and `checked` never survives a release. -/
theorem c3_momentary_checked_mirrors_down :
    (∀ b : ControllerButton, b.sticky = false →
      b.pressEvent.1.checked = true ∧ b.pressEvent.1.down = true
      ∧ b.releaseEvent.1.checked = false ∧ b.releaseEvent.1.down = false)
    ∧ (∀ (b : ControllerButton) (es : List RawEvent), b.sticky = false →
        es ≠ [] → (b.applyEvents es).checked = (b.applyEvents es).down) := by
  constructor
  · decide
  · intro b es hb hne
    exact applyEvents_momentary es hne b hb

/-- C3 witness: the momentary invariant evaluated after one press on a
fresh button. -/
theorem c3_momentary_witness :
    ((ControllerButton.mk GameButton.A false false false).applyEvents
      [RawEvent.press]).checked
    = ((ControllerButton.mk GameButton.A false false false).applyEvents
      [RawEvent.press]).down :=
  c3_momentary_checked_mirrors_down.2
    (ControllerButton.mk GameButton.A false false false) [RawEvent.press]
    rfl (by decide)

/-- C4: in sticky mode a press alone never changes `checked`; a completed
press-release pair flips it exactly once (the toggle happens on release);
at group level, press+release of B latches {1} and a second pair clears it. -/
theorem c4_sticky_toggle_on_release :
    (∀ b : ControllerButton, b.sticky = true →
      b.pressEvent.1.checked = b.checked
      ∧ b.pressEvent.1.releaseEvent.1.checked = !b.checked
      ∧ b.pressEvent.1.releaseEvent.1.sticky = true)
    ∧ ((mkWidget true).applyOps
        [GroupOp.press GameButton.B, GroupOp.release GameButton.B]).get_pressed_buttons
      = {1}
    ∧ ((mkWidget true).applyOps
        [GroupOp.press GameButton.B, GroupOp.release GameButton.B,
         GroupOp.press GameButton.B, GroupOp.release GameButton.B]).get_pressed_buttons
      = (∅ : Finset Nat) := by
  refine ⟨by decide, by decide, by decide⟩

/-- C4 witness: press alone leaves a fresh sticky button unchecked. -/
theorem c4_sticky_witness :
    (ControllerButton.mk GameButton.B false false true).pressEvent.1.checked
      = (ControllerButton.mk GameButton.B false false true).checked :=
  (c4_sticky_toggle_on_release.1 (ControllerButton.mk GameButton.B false false true)
    rfl).1

/-- C5: `set_sticky_mode e` propagates the sticky flag to every owned
button; when `e = true` no reset happens (checked/down/pressed untouched);
when `e = false` a full reset follows, so every button ends unchecked with
`down = false` and `get_pressed_buttons` is empty — in particular a sticky
checked button is cleared and its identity absent. -/
theorem c5_set_sticky_mode (w : ControllerButtonsWidget) (h : PressedInv w)
    (e : Bool) :
    (∀ j, ((w.set_sticky_mode e).1.buttons j).sticky = e)
    ∧ (e = true →
        (∀ j, ((w.set_sticky_mode e).1.buttons j).checked = (w.buttons j).checked
          ∧ ((w.set_sticky_mode e).1.buttons j).down = (w.buttons j).down)
        ∧ (w.set_sticky_mode e).1.pressed = w.pressed)
    ∧ (e = false →
        (∀ j, ((w.set_sticky_mode e).1.buttons j).checked = false
          ∧ ((w.set_sticky_mode e).1.buttons j).down = false)
        ∧ (w.set_sticky_mode e).1.get_pressed_buttons = ∅) := by
  cases e with
  | false =>
    have hs := set_sticky_mode_false_spec w h
    refine ⟨fun j => (hs.1 j).2.2, fun he => absurd he (by decide),
      fun _ => ⟨fun j => ⟨(hs.1 j).1, (hs.1 j).2.1⟩, ?_⟩⟩
    unfold ControllerButtonsWidget.get_pressed_buttons
    rw [hs.2]
    rfl
  | true =>
    have hs := set_sticky_mode_true_spec w
    refine ⟨fun j => by rw [hs.1 j], fun _ => ⟨fun j => ?_, hs.2⟩,
      fun he => absurd he (by decide)⟩
    rw [hs.1 j]
    exact ⟨rfl, rfl⟩

/-- C5 witness: disabling sticky mode on a group with B latched clears B
and empties the pressed set. -/
theorem c5_set_sticky_mode_witness :
    ((((mkWidget true).applyOps [GroupOp.press GameButton.B,
        GroupOp.release GameButton.B]).set_sticky_mode false).1.buttons
          GameButton.B).checked = false
    ∧ (((mkWidget true).applyOps [GroupOp.press GameButton.B,
        GroupOp.release GameButton.B]).set_sticky_mode false).1.get_pressed_buttons
      = ∅ := by
  have h := c5_set_sticky_mode
    ((mkWidget true).applyOps [GroupOp.press GameButton.B, GroupOp.release GameButton.B])
    (by decide) false
  exact ⟨((h.2.2 rfl).1 GameButton.B).1, (h.2.2 rfl).2⟩

/-- C6: `set_button_checked` with an identity in the fixed 4-value set looks
up that button and applies `setChecked`; any identity outside 0..3 yields a
lookup failure (`KeyError`) and, the result being an error, no state
change. -/
theorem c6_set_button_checked (w : ControllerButtonsWidget) (n : Nat)
    (v : Bool) :
    (n < 4 → ∃ i : GameButton, GameButton.toIndex i = n
      ∧ w.set_button_checked n v
          = Except.ok (w.runButtonOp i (ButtonOp.setChecked v))
      ∧ ((w.runButtonOp i (ButtonOp.setChecked v)).1.buttons i).checked = v
      ∧ (∀ j, j ≠ i →
          (w.runButtonOp i (ButtonOp.setChecked v)).1.buttons j = w.buttons j))
    ∧ (4 ≤ n →
        w.set_button_checked n v
          = Except.error ("Unknown button id: " ++ toString n)) := by
  constructor
  · intro hn
    have hd : n = 0 ∨ n = 1 ∨ n = 2 ∨ n = 3 := by omega
    obtain h0 | h1 | h2 | h3 := hd
    · subst h0
      exact ⟨GameButton.A, rfl, set_button_checked_ok w 0 v GameButton.A rfl,
        runButtonOp_setChecked_self w GameButton.A v,
        fun j hj => runButtonOp_other w GameButton.A (ButtonOp.setChecked v) j hj⟩
    · subst h1
      exact ⟨GameButton.B, rfl, set_button_checked_ok w 1 v GameButton.B rfl,
        runButtonOp_setChecked_self w GameButton.B v,
        fun j hj => runButtonOp_other w GameButton.B (ButtonOp.setChecked v) j hj⟩
    · subst h2
      exact ⟨GameButton.X, rfl, set_button_checked_ok w 2 v GameButton.X rfl,
        runButtonOp_setChecked_self w GameButton.X v,
        fun j hj => runButtonOp_other w GameButton.X (ButtonOp.setChecked v) j hj⟩
    · subst h3
      exact ⟨GameButton.Y, rfl, set_button_checked_ok w 3 v GameButton.Y rfl,
        runButtonOp_setChecked_self w GameButton.Y v,
        fun j hj => runButtonOp_other w GameButton.Y (ButtonOp.setChecked v) j hj⟩
  · intro hn
    apply set_button_checked_err
    unfold GameButton.ofNat?
    rw [if_neg (by omega), if_neg (by omega), if_neg (by omega), if_neg (by omega)]

/-- C6 witness: identity 99 raises the lookup error; identity 1 resolves to
button B and applies setChecked. -/
theorem c6_set_button_checked_witness :
    (mkWidget false).set_button_checked 99 true
      = Except.error ("Unknown button id: " ++ toString 99)
    ∧ (mkWidget false).set_button_checked 1 true
      = Except.ok ((mkWidget false).runButtonOp GameButton.B
          (ButtonOp.setChecked true)) := by
  refine ⟨(c6_set_button_checked (mkWidget false) 99 true).2 (by omega), ?_⟩
  obtain ⟨i, hi, hok, _, _⟩ :=
    (c6_set_button_checked (mkWidget false) 1 true).1 (by omega)
  cases i with
  | A => exact absurd hi (by decide)
  | B => exact hok
  | X => exact absurd hi (by decide)
  | Y => exact absurd hi (by decide)

/-- C7: a `toggled` event carrying the new value is emitted exactly when an
operation changes `checked` (press/release derivation, setChecked,
set_sticky or reset alike); operations that leave `checked` unchanged emit
nothing, so `setChecked(true)` twice from unchecked emits exactly once. -/
theorem c7_toggled_exactly_on_change :
    (∀ (b : ControllerButton) (op : ButtonOp),
      (b.runOp op).2 =
        if (b.runOp op).1.checked = b.checked then []
        else [(b.runOp op).1.checked])
    ∧ (∀ b : ControllerButton, b.checked = false →
        (b.setChecked true).2 = [true]
        ∧ ((b.setChecked true).1.setChecked true).2 = []) := by
  exact ⟨runOp_toggles_spec, by decide⟩

/-- C7 witness: the double-setChecked scenario on a fresh button. -/
theorem c7_toggled_witness :
    ((ControllerButton.mk GameButton.A false false false).setChecked true).2 = [true]
    ∧ (((ControllerButton.mk GameButton.A false false false).setChecked
        true).1.setChecked true).2 = [] :=
  c7_toggled_exactly_on_change.2 (ControllerButton.mk GameButton.A false false false)
    rfl

/-- C8: when an owned button emits `toggled` with value v, the group sets
membership of that identity in `pressed` to v, leaves every other identity
and all button states alone, and emits exactly one `button_state_changed`
notification carrying `(int(identity), v)`; per completed checked-state
transition of `setChecked`, exactly one such notification is emitted. -/
theorem c8_group_toggle_handler (w : ControllerButtonsWidget)
    (i : GameButton) (v : Bool) :
    ((i ∈ (w._on_button_toggled i v).1.pressed) ↔ v = true)
    ∧ (∀ j, j ≠ i →
        (j ∈ (w._on_button_toggled i v).1.pressed ↔ j ∈ w.pressed))
    ∧ (w._on_button_toggled i v).1.buttons = w.buttons
    ∧ stateChangedChannel (w._on_button_toggled i v).2 = [(i.toIndex, v)]
    ∧ stateChangedChannel (w.runButtonOp i (ButtonOp.setChecked v)).2
        = (if (w.buttons i).checked = v then [] else [(i.toIndex, v)]) := by
  refine ⟨?_, ?_, rfl, rfl, ?_⟩
  · cases v <;>
      simp [ControllerButtonsWidget._on_button_toggled, Finset.mem_insert,
        Finset.mem_erase]
  · intro j hj
    cases v <;>
      simp [ControllerButtonsWidget._on_button_toggled, Finset.mem_insert,
        Finset.mem_erase, hj]
  · rw [runButtonOp_events, runOp_toggles_spec, runOp_setChecked_fst]
    by_cases hv : (w.buttons i).checked = v
    · rw [if_pos hv]
      have : ({ w.buttons i with checked := v } : ControllerButton).checked
          = (w.buttons i).checked := by rw [hv]
      rw [if_pos this]
      rfl
    · rw [if_neg hv]
      have : ¬ ({ w.buttons i with checked := v } : ControllerButton).checked
          = (w.buttons i).checked := by
        show ¬ v = (w.buttons i).checked
        exact fun hvv => hv hvv.symm
      rw [if_neg this]
      rfl

/-- C8 witness: the handler applied on the fresh group for identity A. -/
theorem c8_group_toggle_witness :
    (GameButton.A ∈ ((mkWidget false)._on_button_toggled GameButton.A true).1.pressed
      ↔ true = true)
    ∧ (GameButton.B ∈ ((mkWidget false)._on_button_toggled GameButton.A true).1.pressed
      ↔ GameButton.B ∈ (mkWidget false).pressed) := by
  have h := c8_group_toggle_handler (mkWidget false) GameButton.A true
  exact ⟨h.1, h.2.1 GameButton.B (by decide)⟩

/-- C9: `set_sticky_mode false` resets unconditionally on the argument
being false: even for a group already in momentary mode (every button with
sticky = false, checked states possibly set programmatically), the call
clears every button's checked and down flags and empties the pressed set. -/
theorem c9_reset_on_disable_unconditional (w : ControllerButtonsWidget)
    (h : PressedInv w) (hm : ∀ j, (w.buttons j).sticky = false) :
    (∀ j, ((w.set_sticky_mode false).1.buttons j).checked = false
      ∧ ((w.set_sticky_mode false).1.buttons j).down = false)
    ∧ (w.set_sticky_mode false).1.get_pressed_buttons = ∅ := by
  have hs := set_sticky_mode_false_spec w h
  refine ⟨fun j => ⟨(hs.1 j).1, (hs.1 j).2.1⟩, ?_⟩
  unfold ControllerButtonsWidget.get_pressed_buttons
  rw [hs.2]
  rfl

/-- C9 witness: a momentary group with A checked programmatically is fully
cleared by `set_sticky_mode false`. -/
theorem c9_reset_on_disable_witness :
    ((((mkWidget false).applyOp (GroupOp.setButtonChecked 0 true)).1.set_sticky_mode
        false).1.buttons GameButton.A).checked = false
    ∧ (((mkWidget false).applyOp
        (GroupOp.setButtonChecked 0 true)).1.set_sticky_mode
          false).1.get_pressed_buttons = ∅ := by
  have h := c9_reset_on_disable_unconditional
    ((mkWidget false).applyOp (GroupOp.setButtonChecked 0 true)).1
    (by decide) (by decide)
  exact ⟨(h.1 GameButton.A).1, h.2⟩

/-- C10: every checked-state transition makes the group emit
`button_toggled` then `button_state_changed` with identical payload; every
group operation's event trace is a concatenation of such pairs, so the two
channels carry the same sequence of (identity, value) pairs. -/
theorem c10_dual_channels :
    (∀ (w : ControllerButtonsWidget) (i : GameButton) (v : Bool),
      (w._on_button_toggled i v).2
        = [GroupEvent.button_toggled i.toIndex v,
           GroupEvent.button_state_changed i.toIndex v])
    ∧ (∀ (w : ControllerButtonsWidget) (op : GroupOp),
        ∃ l, (w.applyOp op).2 = pairEvents l)
    ∧ (∀ l : List (Nat × Bool), toggledChannel (pairEvents l) = l
        ∧ stateChangedChannel (pairEvents l) = l) := by
  refine ⟨fun w i v => rfl, ?_, ?_⟩
  · intro w op
    cases op with
    | press i => exact ⟨_, runButtonOp_events w i ButtonOp.press⟩
    | release i => exact ⟨_, runButtonOp_events w i ButtonOp.release⟩
    | setButtonChecked n v =>
      show ∃ l, (match w.set_button_checked n v with
        | Except.ok r => r
        | Except.error _ => (w, [])).2 = pairEvents l
      cases hn : GameButton.ofNat? n with
      | none =>
        rw [set_button_checked_err w n v hn]
        exact ⟨[], rfl⟩
      | some i =>
        rw [set_button_checked_ok w n v i hn]
        exact ⟨_, runButtonOp_events w i (ButtonOp.setChecked v)⟩
    | setStickyMode e => exact set_sticky_mode_events_paired w e
    | resetAll => exact reset_all_events_paired w
  · intro l
    exact ⟨toggledChannel_pairEvents l, stateChangedChannel_pairEvents l⟩
